import Mathlib

/-!
Shallow embedding of `src/DispFilaTasks.c` (flood-monitoring station on
FreeRTOS).  C `float` arithmetic is modelled with exact rationals `ℚ`; the
FreeRTOS queue `xQueueSensores` (created with capacity 5) is modelled as a
bounded FIFO list; blocking calls are modelled with `Option`, where `none`
means the caller blocks.
-/

namespace DispFilaTasks

/-- Threshold `LIMIAR_AGUA` from line 39 of the source (`70.0f`). -/
def LIMIAR_AGUA : ℚ := 70

/-- Threshold `LIMIAR_CHUVA` from line 40 of the source (`80.0f`). -/
def LIMIAR_CHUVA : ℚ := 80

/-- Matrix size `NUM_LEDS` from line 42 of the source. -/
def NUM_LEDS : ℕ := 25

/-- The struct `dados_sensor_t` (source lines 46-50): exactly three fields,
water level percentage, rainfall percentage and the alert flag.  The C
`float` fields are modelled as rationals. -/
structure dados_sensor_t where
  nivel_agua : ℚ
  volume_chuva : ℚ
  alerta : Bool
deriving DecidableEq, Repr

/-- Conversion of a raw 12-bit ADC sample to a percentage, as on source
lines 97 and 101: `(raw / 4095.0f) * 100.0f`. -/
def pctOfRaw (raw : ℕ) : ℚ := ((raw : ℚ) / 4095) * 100

/-- The classification on source line 104:
`bool alerta = (nivel >= LIMIAR_AGUA || chuva >= LIMIAR_CHUVA);`. -/
def classify (nivel chuva : ℚ) : Bool :=
  decide (LIMIAR_AGUA ≤ nivel) || decide (LIMIAR_CHUVA ≤ chuva)

/-- One cycle of `vJoystickTask` (source lines 94-111): read the two raw
samples, convert each to a percentage and build the `dados_sensor_t` value
that is sent to the queue. -/
def makeReading (raw_y raw_x : ℕ) : dados_sensor_t :=
  let nivel := pctOfRaw raw_y
  let chuva := pctOfRaw raw_x
  { nivel_agua := nivel, volume_chuva := chuva, alerta := classify nivel chuva }

/-- The sampler task keeps no state between cycles: the readings produced
over a run are just the per-cycle function of the raw inputs of that cycle
(source lines 94-116; the loop body has no persistent variable). -/
def samplerOutputs (inputs : List (ℕ × ℕ)) : List dados_sensor_t :=
  inputs.map fun p => makeReading p.1 p.2

/-- Capacity of `xQueueSensores`, from `xQueueCreate(5, ...)` on line 69. -/
def QUEUE_CAPACITY : ℕ := 5

/-- Model of the single shared queue `xQueueSensores`: a FIFO list, head =
oldest element, bounded by `QUEUE_CAPACITY`. -/
abbrev Fila := List dados_sensor_t

/-- Model of FreeRTOS `xQueueSend(q, &v, ticks)`: if the queue has room the
value is appended (returns `pdTRUE`); if it is full and the timeout is 0 the
call returns immediately with failure and the queue unchanged; with a
nonzero timeout on a full queue the caller blocks, modelled as `none`.
The producer calls it with timeout 0 (source line 114). -/
def xQueueSendTicks (ticks : ℕ) (q : Fila) (v : dados_sensor_t) :
    Option (Fila × Bool) :=
  if q.length < QUEUE_CAPACITY then some (q ++ [v], true)
  else if ticks = 0 then some (q, false)
  else none

/-- Model of FreeRTOS `xQueueReceive(q, &v, portMAX_DELAY)`: removes and
returns the OLDEST element; on an empty queue the caller blocks (`none`).
All four consumer tasks call it this way (source lines 141, 199, 230, 263). -/
def xQueueReceive (q : Fila) : Option (dados_sensor_t × Fila) :=
  match q with
  | [] => none
  | x :: xs => some (x, xs)

/-- Body of `vLedRgbTask` for one received reading (source lines 200-210):
the three PWM levels written to `(LED_R, LED_G, LED_B)`. -/
def ledRgbLevels (dados : dados_sensor_t) : ℕ × ℕ × ℕ :=
  if dados.alerta then (255, 0, 0) else (0, 255, 0)

/-- PWM wrap of the buzzer slice, `pwm_set_wrap(slice, 12500)` (line 222). -/
def BUZZER_WRAP : ℕ := 12500

/-- Buzzer level while beeping, `pwm_set_chan_level(..., 6250)` (line 233). -/
def BEEP_LEVEL : ℕ := 6250

/-- Duty fraction produced by writing `lvl` against the buzzer wrap. -/
def dutyFrac (lvl : ℕ) : ℚ := (lvl : ℚ) / (BUZZER_WRAP : ℚ)

/-- Buzzer duty before the first reading is received: `pwm_set_chan_level`
has not been called, so the channel level holds its reset value 0 (the task
is in its silent initial state). -/
def buzzerInitialDuty : ℕ := 0

/-- Body of `vBuzzerTask` for one received reading (source lines 231-242),
as the list of `(pwm level, hold duration in ms)` segments it produces:
alert means 6250 for 200 ms then 0 for 300 ms; no alert means 0 for
500 ms. -/
def buzzerSegments (dados : dados_sensor_t) : List (ℕ × ℕ) :=
  if dados.alerta then [(BEEP_LEVEL, 200), (0, 300)] else [(0, 500)]

/-- Output trace of `vBuzzerTask` over a stream of received readings. -/
def buzzerTrace (rs : List dados_sensor_t) : List (ℕ × ℕ) :=
  (rs.map buzzerSegments).flatten

/-- Color word pushed by `vMatrizLedTask` in alert (line 265). -/
def COLOR_RED : ℕ := 0x00FF0000

/-- Color word pushed by `vMatrizLedTask` in normal mode (line 265). -/
def COLOR_GREEN : ℕ := 0xFF000000

/-- The color chosen on source line 265:
`uint32_t cor = dados.alerta ? 0x00FF0000 : 0xFF000000;`. -/
def matrixCor (dados : dados_sensor_t) : ℕ :=
  if dados.alerta then COLOR_RED else COLOR_GREEN

/-- The `for` loop on source lines 266-268: push the word `cor` once per
iteration, `n` iterations in all. -/
def pushLoop (cor : ℕ) : ℕ → List ℕ
  | 0 => []
  | n + 1 => cor :: pushLoop cor n

/-- Words pushed to the PIO state machine by `vMatrizLedTask` for one
received reading: the loop runs `NUM_LEDS` times with the chosen color. -/
def matrixWords (dados : dados_sensor_t) : List ℕ :=
  pushLoop (matrixCor dados) NUM_LEDS

/-- Number of decimal digits `printf` emits for a natural number. -/
def decimalDigits (n : ℕ) : List Char := Nat.toDigits 10 n

/-- Model of `sprintf(buffer, "%.1f%%", pct)` for a nonnegative percentage
(source lines 163 and 165): round to the nearest tenth, print the integer
part, a dot, one fractional digit and a percent sign. -/
def sprintfPct1 (pct : ℚ) : String :=
  let t : ℕ := (round (pct * 10)).toNat
  (decimalDigits (t / 10)).asString ++ "." ++ (decimalDigits (t % 10)).asString ++ "%"

/-- Bytes `sprintf` writes for the formatted percentage: every character of
the string plus the terminating NUL. -/
def sprintfBytes (pct : ℚ) : ℕ := (sprintfPct1 pct).length + 1

/-- Size of the destination buffer, `char buffer[5]` on source line 135. -/
def BUFFER_SIZE : ℕ := 5

/-- Queue state used to exercise a send against a full queue: five readings
already backlogged (the capacity from `xQueueCreate(5, ...)`). -/
def fullFila : Fila :=
  [makeReading 0 0, makeReading 1 0, makeReading 2 0,
   makeReading 3 0, makeReading 4 0]

/-- C1: for every reading produced by the sampler, the alert flag equals the
disjunction of the threshold tests on the stored percentages, and the
classification at the boundary values 69.99/70.00 and 79.99/80.00 is
false/true respectively. -/
theorem alerta_eq_threshold_disjunction :
    (∀ raw_y raw_x : ℕ,
        ((makeReading raw_y raw_x).alerta = true ↔
          (70 ≤ (makeReading raw_y raw_x).nivel_agua ∨
           80 ≤ (makeReading raw_y raw_x).volume_chuva)))
    ∧ classify (6999 / 100) 0 = false ∧ classify 70 0 = true
    ∧ classify 0 (7999 / 100) = false ∧ classify 0 80 = true := by
  refine ⟨?_, by norm_num [classify, LIMIAR_AGUA, LIMIAR_CHUVA],
    by norm_num [classify, LIMIAR_AGUA, LIMIAR_CHUVA],
    by norm_num [classify, LIMIAR_AGUA, LIMIAR_CHUVA],
    by norm_num [classify, LIMIAR_AGUA, LIMIAR_CHUVA]⟩
  intro raw_y raw_x
  simp [makeReading, classify, LIMIAR_AGUA, LIMIAR_CHUVA, Bool.or_eq_true,
    decide_eq_true_iff]

/-- C2 (refutation): the source has one shared queue, not per-consumer
mailboxes.  After a single publish of an alert reading into the empty queue,
the first consumer's receive removes it, leaving the queue empty, so a
second consumer's receive blocks and never observes that reading: a publish
reaches exactly one of the four consumers, not all of them. -/
theorem shared_queue_single_delivery :
    xQueueSendTicks 0 [] (makeReading 3276 0) = some ([makeReading 3276 0], true)
    ∧ xQueueReceive [makeReading 3276 0] = some (makeReading 3276 0, [])
    ∧ xQueueReceive [] = none := by
  refine ⟨?_, rfl, rfl⟩
  rfl

/-- C3 (refutation): the channel is a 5-slot FIFO, not a single-slot
latest-value-wins mailbox.  With five unread readings backlogged, a publish
of a sixth FAILS and leaves the queue unchanged (it drops the newest value
instead of overwriting), and the slow consumer's next receive returns the
OLDEST backlogged reading, not the most recent one. -/
theorem queue_full_drops_newest :
    xQueueSendTicks 0 fullFila (makeReading 5 0) = some (fullFila, false)
    ∧ xQueueReceive fullFila =
        some (makeReading 0 0,
          [makeReading 1 0, makeReading 2 0, makeReading 3 0, makeReading 4 0])
    ∧ makeReading 0 0 ≠ makeReading 5 0 := by
  refine ⟨?_, rfl, ?_⟩
  · rfl
  · intro h
    have hfield := congrArg dados_sensor_t.nivel_agua h
    simp only [makeReading] at hfield
    norm_num [pctOfRaw] at hfield

/-- C4: for raw samples in `[0, 4095]` the produced reading stores exactly
`raw / 4095 * 100` in each percentage field, and both lie in `[0, 100]`. -/
theorem pct_conversion_range (raw_y raw_x : ℕ)
    (hy : raw_y ≤ 4095) (hx : raw_x ≤ 4095) :
    (makeReading raw_y raw_x).nivel_agua = (raw_y : ℚ) / 4095 * 100
    ∧ (makeReading raw_y raw_x).volume_chuva = (raw_x : ℚ) / 4095 * 100
    ∧ 0 ≤ (makeReading raw_y raw_x).nivel_agua
    ∧ (makeReading raw_y raw_x).nivel_agua ≤ 100
    ∧ 0 ≤ (makeReading raw_y raw_x).volume_chuva
    ∧ (makeReading raw_y raw_x).volume_chuva ≤ 100 := by
  have nonneg : ∀ r : ℕ, 0 ≤ pctOfRaw r := by
    intro r
    unfold pctOfRaw
    positivity
  have bound : ∀ r : ℕ, r ≤ 4095 → pctOfRaw r ≤ 100 := by
    intro r hr
    have hr' : (r : ℚ) ≤ 4095 := by exact_mod_cast hr
    unfold pctOfRaw
    rw [div_mul_eq_mul_div, div_le_iff₀ (by norm_num)]
    linarith
  exact ⟨rfl, rfl, nonneg raw_y, bound raw_y hy, nonneg raw_x, bound raw_x hx⟩

/-- C4 witness: the bounds and the conversion formula at the concrete raw
samples `(2866, 4095)`. -/
theorem pct_conversion_range_witness :
    (makeReading 2866 4095).nivel_agua = (2866 : ℚ) / 4095 * 100
    ∧ (makeReading 2866 4095).volume_chuva = (4095 : ℚ) / 4095 * 100
    ∧ 0 ≤ (makeReading 2866 4095).nivel_agua
    ∧ (makeReading 2866 4095).nivel_agua ≤ 100
    ∧ 0 ≤ (makeReading 2866 4095).volume_chuva
    ∧ (makeReading 2866 4095).volume_chuva ≤ 100 :=
  pct_conversion_range 2866 4095 (by decide) (by decide)

/-- Concrete sampler output with the alert raised: raw level 3276 is exactly
80 %, above the 70 % water threshold. -/
def alertReading : dados_sensor_t := makeReading 3276 0

/-- Concrete sampler output without alert: both raw samples zero. -/
def calmReading : dados_sensor_t := makeReading 0 0

theorem alertReading_alerta : alertReading.alerta = true := by
  have h1 : pctOfRaw 3276 = 80 := by norm_num [pctOfRaw]
  have h2 : pctOfRaw 0 = 0 := by norm_num [pctOfRaw]
  simp only [alertReading, makeReading, classify, h1, h2, LIMIAR_AGUA, LIMIAR_CHUVA,
    Bool.or_eq_true, decide_eq_true_eq]
  exact Or.inl (by norm_num)

theorem calmReading_alerta : calmReading.alerta = false := by
  have h2 : pctOfRaw 0 = 0 := by norm_num [pctOfRaw]
  simp only [calmReading, makeReading, classify, h2, LIMIAR_AGUA, LIMIAR_CHUVA,
    Bool.or_eq_false_iff, decide_eq_false_iff_not]
  constructor <;> norm_num

/-- C5: the buzzer starts silent (level 0), beeps at exactly half duty
(6250 of wrap 12500) for 200 ms then mutes for 300 ms for every alert
reading it observes — so a stream of alert readings yields the on/off cycle
repeated once per reading — and on observing a non-alert reading it holds
level 0 for the 500 ms idle period. -/
theorem buzzer_cadence :
    dutyFrac BEEP_LEVEL = 1 / 2
    ∧ dutyFrac 0 = 0
    ∧ dutyFrac buzzerInitialDuty = 0
    ∧ (∀ rs : List dados_sensor_t, (∀ r ∈ rs, r.alerta = true) →
        buzzerTrace rs =
          (List.replicate rs.length [(BEEP_LEVEL, 200), (0, 300)]).flatten)
    ∧ (∀ r : dados_sensor_t, r.alerta = false → buzzerSegments r = [(0, 500)]) := by
  refine ⟨by norm_num [dutyFrac, BEEP_LEVEL, BUZZER_WRAP],
    by norm_num [dutyFrac],
    by norm_num [dutyFrac, buzzerInitialDuty], ?_, ?_⟩
  · intro rs
    induction rs with
    | nil => intro _; rfl
    | cons a t ih =>
      intro h
      have ha : a.alerta = true := h a (List.mem_cons_self a t)
      have ht : ∀ r ∈ t, r.alerta = true := fun r hr => h r (List.mem_cons_of_mem a hr)
      simp only [buzzerTrace, List.map_cons, List.flatten_cons, List.length_cons,
        List.replicate_succ] at ih ⊢
      rw [ih ht, show buzzerSegments a = [(BEEP_LEVEL, 200), (0, 300)] from by
        simp [buzzerSegments, ha]]
  · intro r h
    simp [buzzerSegments, h]

/-- C5 witness: two consecutive alert readings produce two on/off cycles,
and a non-alert reading produces the single silent 500 ms segment. -/
theorem buzzer_cadence_witness :
    buzzerTrace [alertReading, alertReading] =
      (List.replicate (List.length [alertReading, alertReading])
        [(BEEP_LEVEL, 200), (0, 300)]).flatten
    ∧ buzzerSegments calmReading = [(0, 500)] :=
  ⟨buzzer_cadence.2.2.2.1 [alertReading, alertReading]
      (by
        intro r hr
        rcases List.mem_cons.mp hr with h | h
        · rw [h]; exact alertReading_alerta
        · rw [List.mem_singleton.mp h]; exact alertReading_alerta),
   buzzer_cadence.2.2.2.2 calmReading calmReading_alerta⟩

/-- C6 (refutation of uniqueness): the sampler keeps no per-cycle state, so
two cycles fed the same raw samples produce IDENTICAL readings — the struct
`dados_sensor_t` has no sequence field and nothing distinguishes reading
generations. -/
theorem sampler_readings_not_unique (inputs : List (ℕ × ℕ)) (i j : ℕ)
    (h : inputs[i]? = inputs[j]?) :
    (samplerOutputs inputs)[i]? = (samplerOutputs inputs)[j]? := by
  simp only [samplerOutputs, List.getElem?_map, h]

/-- C6 witness: cycles 0 and 1 of a run with repeated raw inputs yield equal
readings. -/
theorem sampler_readings_not_unique_witness :
    (samplerOutputs [(2048, 1000), (2048, 1000)])[0]? =
      (samplerOutputs [(2048, 1000), (2048, 1000)])[1]? :=
  sampler_readings_not_unique [(2048, 1000), (2048, 1000)] 0 1 rfl

/-- C7: the producer's `xQueueSend(..., 0)` never blocks: for EVERY queue
state it returns a result (it never reaches the blocking case), and on a
full queue it returns immediately with failure, the queue unchanged —
independent of whether any consumer ever drains the queue. -/
theorem send_zero_timeout_nonblocking (q : Fila) (v : dados_sensor_t) :
    (xQueueSendTicks 0 q v).isSome = true
    ∧ (q.length = QUEUE_CAPACITY → xQueueSendTicks 0 q v = some (q, false)) := by
  constructor
  · unfold xQueueSendTicks
    split
    · rfl
    · simp
  · intro h
    unfold xQueueSendTicks
    rw [h]
    simp

/-- C7 witness: publishing into the full queue left by a consumer that never
reads still returns, with failure and no change. -/
theorem send_zero_timeout_nonblocking_witness :
    xQueueSendTicks 0 fullFila (makeReading 5 0) = some (fullFila, false) :=
  (send_zero_timeout_nonblocking fullFila (makeReading 5 0)).2 rfl

/-- C8: the RGB task's output is a pure function of the alert flag: red 255
with green and blue 0 on alert, green 255 with red and blue 0 otherwise,
and the blue channel is 0 in every case. -/
theorem led_rgb_pure_function_of_alert (dados : dados_sensor_t) :
    (dados.alerta = true → ledRgbLevels dados = (255, 0, 0))
    ∧ (dados.alerta = false → ledRgbLevels dados = (0, 255, 0))
    ∧ (ledRgbLevels dados).2.2 = 0 := by
  refine ⟨fun h => by simp [ledRgbLevels, h], fun h => by simp [ledRgbLevels, h], ?_⟩
  unfold ledRgbLevels
  split <;> rfl

/-- C8 witness: the two branches at concrete readings. -/
theorem led_rgb_pure_function_of_alert_witness :
    ledRgbLevels alertReading = (255, 0, 0)
    ∧ ledRgbLevels calmReading = (0, 255, 0) :=
  ⟨(led_rgb_pure_function_of_alert alertReading).1 alertReading_alerta,
   (led_rgb_pure_function_of_alert calmReading).2.1 calmReading_alerta⟩

theorem pushLoop_eq_replicate (cor n : ℕ) : pushLoop cor n = List.replicate n cor := by
  induction n with
  | zero => rfl
  | succ k ih => simp [pushLoop, List.replicate_succ, ih]

/-- C9: for every reading, the matrix task pushes exactly `NUM_LEDS = 25`
words, all equal to the chosen color: the red word `0x00FF0000` on alert,
the green word `0xFF000000` otherwise. -/
theorem matrix_pushes_25_identical (dados : dados_sensor_t) :
    (matrixWords dados).length = 25
    ∧ (∀ w ∈ matrixWords dados, w = matrixCor dados)
    ∧ (dados.alerta = true → matrixWords dados = List.replicate 25 COLOR_RED)
    ∧ (dados.alerta = false → matrixWords dados = List.replicate 25 COLOR_GREEN) := by
  have hrep := pushLoop_eq_replicate (matrixCor dados) NUM_LEDS
  refine ⟨?_, ?_, ?_, ?_⟩
  · rw [matrixWords, hrep, List.length_replicate]
    rfl
  · intro w hw
    rw [matrixWords, hrep] at hw
    exact List.eq_of_mem_replicate hw
  · intro h
    rw [matrixWords, hrep]
    simp [matrixCor, h, NUM_LEDS]
  · intro h
    rw [matrixWords, hrep]
    simp [matrixCor, h, NUM_LEDS]

/-- C9 witness: the full burst at concrete alert and non-alert readings. -/
theorem matrix_pushes_25_identical_witness :
    matrixWords alertReading = List.replicate 25 COLOR_RED
    ∧ matrixWords calmReading = List.replicate 25 COLOR_GREEN :=
  ⟨(matrix_pushes_25_identical alertReading).2.2.1 alertReading_alerta,
   (matrix_pushes_25_identical calmReading).2.2.2 calmReading_alerta⟩

/-- C10 (refutation): a reading whose level is about 50 % — raw sample 2048,
inside the claimed `[0,100]` range — formats as the five-character string
`50.0%`, which with the terminating NUL needs 6 bytes, exceeding the 5-byte
`buffer` the display task writes into. -/
theorem display_sprintf_overflow :
    0 ≤ (makeReading 2048 0).nivel_agua
    ∧ (makeReading 2048 0).nivel_agua ≤ 100
    ∧ sprintfPct1 ((makeReading 2048 0).nivel_agua) = "50.0%"
    ∧ BUFFER_SIZE < sprintfBytes ((makeReading 2048 0).nivel_agua) := by
  have hn : (makeReading 2048 0).nivel_agua = 40960 / 819 := by
    norm_num [makeReading, pctOfRaw]
  have hround : round ((40960 : ℚ) / 819 * 10) = 500 := by
    rw [round_eq, Int.floor_eq_iff]
    constructor <;> norm_num
  have hs : sprintfPct1 ((40960 : ℚ) / 819) = "50.0%" := by
    simp only [sprintfPct1, hround]
    rfl
  refine ⟨by rw [hn]; norm_num, by rw [hn]; norm_num, by rw [hn]; exact hs, ?_⟩
  rw [hn, sprintfBytes, hs]
  decide

end DispFilaTasks
